import Mathlib

/-!
Verification development for the Gateway Registration Agent
(class GatewayRegistryService, second unit of
src/packages/@smashclub/common/src/services/repository-logger.service.ts,
lines 174-481).

The agent is embedded shallowly: every network call is represented by the
outcome the surrounding code branches on, and each operation of the agent
becomes a pure function from the mutable instance state to the new state
together with the list of network calls the operation issued.  Timers
(setInterval handles stored in optional fields) are modelled by a pair of
a count of live interval objects and a flag recording whether the field
currently holds a handle: clearing a timer field is handle-guarded in the
source, so it decrements the count only when the flag is set, while
arming stores a fresh handle (dropping, not cancelling, any previous one).
-/

/-- JSON values as produced by response.json in verifyRegistration. -/
inductive JsonValue where
  | jnull
  | jbool (b : Bool)
  | jnum (n : Int)
  | jstr (s : String)
  | jarr (elems : List JsonValue)
  | jobj (fields : List (String × JsonValue))

/-- Outcome of the heartbeat POST as branched on in sendHeartbeat
(lines 372-386): response.ok, response.status 404, or any other non-2xx
status as well as a thrown transport error (both reach
handleHeartbeatFailure). -/
inductive HbOutcome where
  | ok
  | notFound
  | failed
deriving DecidableEq

/-- Network calls the agent issues, tagged with the outcome the code
observed (register: fetch resolved 2xx or not/threw; deregister: whether
the fetch promise resolved at all). -/
inductive Call where
  | register (ok : Bool)
  | heartbeat (outcome : HbOutcome)
  | verify
  | deregister (resolved : Bool)
deriving DecidableEq

/-- A timer field of the service (heartbeatTimer, retryTimer,
healthCheckTimer): live counts the interval objects currently scheduled
for this callback, handle records whether the instance field holds a
handle. -/
structure TimerSlot where
  live : Nat
  handle : Bool
deriving DecidableEq

/-- Handle-guarded clearing, the exact shape used at lines 277-288,
299-302 and 408-411: if (this.t) clearInterval(this.t); this.t = undefined. -/
def TimerSlot.clearI (t : TimerSlot) : TimerSlot :=
  if t.handle then { live := t.live - 1, handle := false } else t

/-- this.t = setInterval(...): a new interval object becomes live and the
field is overwritten with its handle (a previously stored handle is
dropped without being cancelled). -/
def TimerSlot.arm (t : TimerSlot) : TimerSlot :=
  { live := t.live + 1, handle := true }

/-- Mutable instance state of GatewayRegistryService (lines 206-211). -/
structure AgentState where
  registered : Bool
  isRetrying : Bool
  consecutiveFailures : Nat
  heartbeatTimer : TimerSlot
  retryTimer : TimerSlot
  healthCheckTimer : TimerSlot
deriving DecidableEq

/-- Field initialisers at lines 206-211. -/
def initState : AgentState :=
  { registered := false, isRetrying := false, consecutiveFailures := 0,
    heartbeatTimer := { live := 0, handle := false },
    retryTimer := { live := 0, handle := false },
    healthCheckTimer := { live := 0, handle := false } }

/-- this.maxConsecutiveFailures (line 212). -/
def maxConsecutiveFailures : Nat := 3

/-- startHeartbeat (lines 357-361): arms the heartbeat interval without
clearing a previously stored handle. -/
def startHeartbeat (s : AgentState) : AgentState :=
  { s with heartbeatTimer := s.heartbeatTimer.arm }

/-- attemptRegistration (lines 291-330), with regOk the outcome of the
register POST (lines 332-355): true iff fetch resolved with response.ok.
Returns the new state and the calls issued. -/
def attemptRegistration (regOk : Bool) (s : AgentState) : AgentState × List Call :=
  if s.registered then (s, [])
  else if regOk then
    (startHeartbeat
      { s with registered := true, isRetrying := false,
               retryTimer := s.retryTimer.clearI },
     [Call.register true])
  else
    let s1 := { s with registered := false }
    if s1.isRetrying then (s1, [Call.register false])
    else ({ s1 with isRetrying := true, retryTimer := s1.retryTimer.arm },
          [Call.register false])

/-- Synchronous state mutation of forceReRegister (lines 402-411): set
registered false, reset the failure counter, clear isRetrying, clear the
heartbeat timer field. -/
def forcePre (s : AgentState) : AgentState :=
  { s with registered := false, consecutiveFailures := 0, isRetrying := false,
           heartbeatTimer := s.heartbeatTimer.clearI }

/-- forceReRegister (lines 402-415) under sequential completion: the
state mutation followed by attemptRegistration (which the source invokes
without awaiting; the interleaved variant is modelled separately below). -/
def forceReRegister (regOk : Bool) (s : AgentState) : AgentState × List Call :=
  attemptRegistration regOk (forcePre s)

/-- handleHeartbeatFailure (lines 389-397). -/
def handleHeartbeatFailure (regOk : Bool) (s : AgentState) : AgentState × List Call :=
  let s1 := { s with consecutiveFailures := s.consecutiveFailures + 1 }
  if maxConsecutiveFailures ≤ s1.consecutiveFailures then forceReRegister regOk s1
  else (s1, [])

/-- sendHeartbeat (lines 363-387): when unregistered it only re-enters
attemptRegistration; when registered it issues the heartbeat POST and
branches on the outcome. -/
def sendHeartbeat (hb : HbOutcome) (regOk : Bool) (s : AgentState) : AgentState × List Call :=
  if s.registered = false then attemptRegistration regOk s
  else
    match hb with
    | .ok => ({ s with consecutiveFailures := 0 }, [Call.heartbeat .ok])
    | .notFound =>
        let r := forceReRegister regOk s
        (r.1, Call.heartbeat .notFound :: r.2)
    | .failed =>
        let r := handleHeartbeatFailure regOk s
        (r.1, Call.heartbeat .failed :: r.2)

/-- First-match association lookup, modelling property access on a parsed
JSON object. -/
def lookupField : List (String × JsonValue) → String → Option JsonValue
  | [], _ => none
  | (k, v) :: rest, key => if k == key then some v else lookupField rest key

/-- data?.instances (line 442): none models the JavaScript undefined
(optional chaining on null, a missing property, or a primitive). -/
def getInstances : JsonValue → Option JsonValue
  | .jobj fs => lookupField fs "instances"
  | _ => none

/-- JavaScript truthiness of a JSON value. -/
def truthy : JsonValue → Bool
  | .jnull => false
  | .jbool b => b
  | .jnum n => !(n == 0)
  | .jstr s => !(s == "")
  | .jarr _ => true
  | .jobj _ => true

/-- Array.isArray(data) ? data : (data?.instances || []) at line 442. -/
def rawInstances (data : JsonValue) : JsonValue :=
  match data with
  | .jarr xs => .jarr xs
  | _ =>
      match getInstances data with
      | some v => if truthy v then v else .jarr []
      | none => .jarr []

/-- inst?.instanceId === this.config.instanceId at line 446: strict
equality of the looked-up property against the configured string. -/
def instMatches (iid : String) (inst : JsonValue) : Bool :=
  match inst with
  | .jobj fs =>
      match lookupField fs "instanceId" with
      | some (.jstr s) => s == iid
      | _ => false
  | _ => false

/-- rawInstances.some(...) at lines 445-447: none models the TypeError
thrown when rawInstances is not an array (caught by the surrounding try). -/
def someMatch (iid : String) (v : JsonValue) : Option Bool :=
  match v with
  | .jarr xs => some (xs.any (instMatches iid))
  | _ => none

/-- Outcome of the health-check GET as observed by verifyRegistration:
fetch threw, response non-2xx, response 2xx but response.json threw, or
2xx with a parsed JSON body. -/
inductive VerifyWire where
  | transportError
  | httpError
  | parseError
  | okJson (body : JsonValue)

/-- verifyRegistration (lines 427-457), with iid the configured
instanceId. A thrown error anywhere inside the try (transport, JSON
parsing, or .some on a non-array) is caught at line 453 and leaves the
state unchanged; a non-2xx response returns early at line 437. -/
def verifyRegistration (iid : String) (w : VerifyWire) (regOk : Bool)
    (s : AgentState) : AgentState × List Call :=
  if s.registered = false then (s, [])
  else
    match w with
    | .transportError => (s, [Call.verify])
    | .httpError => (s, [Call.verify])
    | .parseError => (s, [Call.verify])
    | .okJson body =>
        match someMatch iid (rawInstances body) with
        | none => (s, [Call.verify])
        | some true => (s, [Call.verify])
        | some false =>
            let r := forceReRegister regOk s
            (r.1, Call.verify :: r.2)

/-- stopTimers (lines 276-289). -/
def stopTimers (s : AgentState) : AgentState :=
  { s with retryTimer := s.retryTimer.clearI,
           heartbeatTimer := s.heartbeatTimer.clearI,
           healthCheckTimer := s.healthCheckTimer.clearI }

/-- deregister (lines 459-463): registered is set to false only after the
awaited fetch, so it stays unchanged when the fetch throws (resolved =
false); any resolved response, whatever its status, reaches the
assignment. -/
def deregister (resolved : Bool) (s : AgentState) : AgentState × List Call :=
  if resolved then ({ s with registered := false }, [Call.deregister true])
  else (s, [Call.deregister false])

/-- onModuleDestroy (lines 263-274): stop all timers, then best-effort
deregister when registered, catching any thrown error. -/
def onModuleDestroy (resolved : Bool) (s : AgentState) : AgentState × List Call :=
  let s1 := stopTimers s
  if s1.registered then deregister resolved s1 else (s1, [])

/-- startHealthCheck (lines 421-425). -/
def startHealthCheck (s : AgentState) : AgentState :=
  { s with healthCheckTimer := s.healthCheckTimer.arm }

/-- onModuleInit (lines 246-261): when enabled, one registration attempt
followed by arming the health-check interval. -/
def onModuleInit (enabled regOk : Bool) (s : AgentState) : AgentState × List Call :=
  if enabled = false then (s, [])
  else
    let r := attemptRegistration regOk s
    (startHealthCheck r.1, r.2)

/-- Operations that can act on the agent after startup: a heartbeat-timer
tick, a retry-timer tick (its callback at lines 322-327 re-attempts only
while unregistered), a health-check tick, a forced re-registration (whose
call sites, lines 380, 395 and 451, all run with registered true), and
shutdown. Each timer tick can only fire while the corresponding field
holds a handle. -/
inductive Event where
  | hbTick (hb : HbOutcome) (regOk : Bool)
  | retryTick (regOk : Bool)
  | healthTick (iid : String) (w : VerifyWire) (regOk : Bool)
  | forceEvt (regOk : Bool)
  | stopEvt (resolved : Bool)

/-- One operation of the agent, returning the new state and the network
calls issued during it. -/
def step (e : Event) (s : AgentState) : AgentState × List Call :=
  match e with
  | .hbTick hb r =>
      if s.heartbeatTimer.handle then sendHeartbeat hb r s else (s, [])
  | .retryTick r =>
      if s.retryTimer.handle then
        (if s.registered = false then attemptRegistration r s else (s, []))
      else (s, [])
  | .healthTick iid w r =>
      if s.healthCheckTimer.handle then verifyRegistration iid w r s else (s, [])
  | .forceEvt r => if s.registered then forceReRegister r s else (s, [])
  | .stopEvt d => onModuleDestroy d s

/-- Run a list of operations from a state, discarding the call traces. -/
def run (tr : List Event) (s : AgentState) : AgentState :=
  match tr with
  | [] => s
  | e :: rest => run rest (step e s).1

/-- State right after onModuleInit on a fresh enabled instance, with
regOk the outcome of the initial register call. -/
def afterStart (regOk : Bool) : AgentState := (onModuleInit true regOk initState).1

/-- States the agent can be in between operations, for either outcome of
the initial registration. -/
def Reach (s : AgentState) : Prop :=
  ∃ (r : Bool) (tr : List Event), run tr (afterStart r) = s

/-- A timer field is well formed when its live-interval count matches the
stored handle: exactly one live interval when a handle is stored, none
otherwise. -/
def slotOk (t : TimerSlot) : Prop := t.live = if t.handle then 1 else 0

/-- Inductive invariant of the sequential model: registered excludes
retrying, a stored retry handle implies the retrying flag, a registered
agent has no retry handle, an unregistered agent has no heartbeat handle,
all three timer fields are well formed, and an unregistered agent with an
armed retry timer has a zero failure counter. -/
def AgentInv (s : AgentState) : Prop :=
  (s.registered = true → s.isRetrying = false)
  ∧ (s.retryTimer.handle = true → s.isRetrying = true)
  ∧ (s.registered = true → s.retryTimer.handle = false)
  ∧ (s.registered = false → s.heartbeatTimer.handle = false)
  ∧ slotOk s.heartbeatTimer ∧ slotOk s.retryTimer ∧ slotOk s.healthCheckTimer
  ∧ (s.registered = false → s.retryTimer.handle = true → s.consecutiveFailures = 0)

theorem slotOk_clearI {t : TimerSlot} (h : slotOk t) :
    slotOk t.clearI ∧ t.clearI.handle = false := by
  obtain ⟨l, hd⟩ := t
  cases hd <;> simp [slotOk, TimerSlot.clearI] at h ⊢ <;> omega

theorem slotOk_arm {t : TimerSlot} (h : slotOk t) (hh : t.handle = false) :
    slotOk t.arm := by
  obtain ⟨l, hd⟩ := t
  simp at hh
  subst hh
  simp [slotOk, TimerSlot.arm] at h ⊢
  omega

theorem agentInv_attempt {s : AgentState} (h : AgentInv s) (hreg : s.registered = false)
    (hcf : s.consecutiveFailures = 0 ∨ s.isRetrying = true) (r : Bool) :
    AgentInv (attemptRegistration r s).1 := by
  obtain ⟨i1, i2, i3, i4, i5, i6, i7, i8⟩ := h
  obtain ⟨reg, retr, cf, hbt, rt, hct⟩ := s
  simp only at hreg
  subst hreg
  cases r <;> cases retr <;>
    simp_all [attemptRegistration, startHeartbeat, AgentInv] <;>
    first
      | exact slotOk_arm i6 i2
      | exact ⟨(slotOk_clearI i6).2, slotOk_arm i5 i4, (slotOk_clearI i6).1⟩

theorem agentInv_forcePre {s : AgentState} (h : AgentInv s) (hreg : s.registered = true) :
    AgentInv (forcePre s) ∧ (forcePre s).consecutiveFailures = 0
      ∧ (forcePre s).registered = false := by
  obtain ⟨i1, i2, i3, i4, i5, i6, i7, i8⟩ := h
  obtain ⟨reg, retr, cf, hbt, rt, hct⟩ := s
  simp only at hreg
  subst hreg
  simp_all [forcePre, AgentInv]
  exact ⟨(slotOk_clearI i5).2, (slotOk_clearI i5).1⟩

theorem agentInv_force {s : AgentState} (h : AgentInv s) (hreg : s.registered = true)
    (r : Bool) : AgentInv (forceReRegister r s).1 := by
  obtain ⟨h1, h2, h3⟩ := agentInv_forcePre h hreg
  exact agentInv_attempt h1 h3 (Or.inl h2) r

theorem agentInv_setCf {s : AgentState} (h : AgentInv s) (hreg : s.registered = true)
    (n : Nat) : AgentInv { s with consecutiveFailures := n } := by
  obtain ⟨i1, i2, i3, i4, i5, i6, i7, i8⟩ := h
  obtain ⟨reg, retr, cf, hbt, rt, hct⟩ := s
  simp only at hreg
  subst hreg
  simp_all [AgentInv]

theorem agentInv_sendHeartbeat {s : AgentState} (h : AgentInv s)
    (hreg : s.registered = true) (hb : HbOutcome) (r : Bool) :
    AgentInv (sendHeartbeat hb r s).1 := by
  cases hb with
  | ok => simpa [sendHeartbeat, hreg] using agentInv_setCf h hreg 0
  | notFound => simpa [sendHeartbeat, hreg] using agentInv_force h hreg r
  | failed =>
      have hbump := agentInv_setCf h hreg (s.consecutiveFailures + 1)
      by_cases hthr : maxConsecutiveFailures ≤ s.consecutiveFailures + 1
      · simpa [sendHeartbeat, hreg, handleHeartbeatFailure, hthr] using
          agentInv_force hbump hreg r
      · simpa [sendHeartbeat, hreg, handleHeartbeatFailure, hthr] using hbump

theorem agentInv_verify {s : AgentState} (h : AgentInv s) (iid : String)
    (w : VerifyWire) (r : Bool) : AgentInv (verifyRegistration iid w r s).1 := by
  by_cases hreg : s.registered = false
  · simpa [verifyRegistration, hreg] using h
  · have hreg' : s.registered = true := by simpa using hreg
    cases w with
    | transportError => simpa [verifyRegistration, hreg'] using h
    | httpError => simpa [verifyRegistration, hreg'] using h
    | parseError => simpa [verifyRegistration, hreg'] using h
    | okJson body =>
        cases hm : someMatch iid (rawInstances body) with
        | none => simpa [verifyRegistration, hreg', hm] using h
        | some b =>
            cases b with
            | true => simpa [verifyRegistration, hreg', hm] using h
            | false =>
                simpa [verifyRegistration, hreg', hm] using agentInv_force h hreg' r

theorem agentInv_stop {s : AgentState} (h : AgentInv s) (d : Bool) :
    AgentInv (onModuleDestroy d s).1 := by
  obtain ⟨i1, i2, i3, i4, i5, i6, i7, i8⟩ := h
  obtain ⟨reg, retr, cf, hbt, rt, hct⟩ := s
  cases reg <;> cases d <;>
    simp_all [onModuleDestroy, stopTimers, deregister, AgentInv]
  all_goals
    have hb1 := slotOk_clearI i5
    have hr1 := slotOk_clearI i6
    have hc1 := slotOk_clearI i7
    simp_all

theorem agentInv_step {s : AgentState} (h : AgentInv s) (e : Event) :
    AgentInv (step e s).1 := by
  cases e with
  | hbTick hb r =>
      by_cases hh : s.heartbeatTimer.handle = true
      · have hreg : s.registered = true := by
          cases hr : s.registered with
          | false => exact absurd (h.2.2.2.1 hr) (by simp [hh])
          | true => rfl
        simpa [step, hh] using agentInv_sendHeartbeat h hreg hb r
      · simpa [step, hh] using h
  | retryTick r =>
      by_cases hh : s.retryTimer.handle = true
      · by_cases hr : s.registered = false
        · simpa [step, hh, hr] using
            agentInv_attempt h hr (Or.inr (h.2.1 hh)) r
        · simpa [step, hh, hr] using h
      · simpa [step, hh] using h
  | healthTick iid w r =>
      by_cases hh : s.healthCheckTimer.handle = true
      · simpa [step, hh] using agentInv_verify h iid w r
      · simpa [step, hh] using h
  | forceEvt r =>
      by_cases hr : s.registered = true
      · simpa [step, hr] using agentInv_force h hr r
      · simpa [step, hr] using h
  | stopEvt d => exact agentInv_stop h d

theorem agentInv_run (tr : List Event) {s : AgentState} (h : AgentInv s) :
    AgentInv (run tr s) := by
  induction tr generalizing s with
  | nil => exact h
  | cons e rest ih => exact ih (agentInv_step h e)

theorem agentInv_afterStart (r : Bool) : AgentInv (afterStart r) := by
  unfold AgentInv slotOk
  cases r <;> decide

/-- Every state reachable between operations satisfies the inductive
invariant. -/
theorem reach_agentInv {s : AgentState} (h : Reach s) : AgentInv s := by
  obtain ⟨r, tr, hrun⟩ := h
  subst hrun
  exact agentInv_run tr (agentInv_afterStart r)

theorem clearI_handle (t : TimerSlot) : t.clearI.handle = false := by
  obtain ⟨l, hd⟩ := t
  cases hd <;> simp_all [TimerSlot.clearI]

theorem clearI_live {t : TimerSlot} (h : slotOk t) : t.clearI.live = 0 := by
  obtain ⟨l, hd⟩ := t
  cases hd <;> simp_all [slotOk, TimerSlot.clearI]

theorem slotOk_le_one {t : TimerSlot} (h : slotOk t) : t.live ≤ 1 := by
  rw [slotOk] at h
  split at h <;> omega

theorem register_mem_attempt {s : AgentState} (hreg : s.registered = false) (r : Bool) :
    Call.register r ∈ (attemptRegistration r s).2 := by
  obtain ⟨reg, retr, cf, hbt, rt, hct⟩ := s
  simp only at hreg
  subst hreg
  cases r <;> cases retr <;> simp [attemptRegistration]

theorem attempt_cf (r : Bool) (s : AgentState) :
    (attemptRegistration r s).1.consecutiveFailures = s.consecutiveFailures := by
  obtain ⟨reg, retr, cf, hbt, rt, hct⟩ := s
  cases reg <;> cases r <;> cases retr <;>
    simp [attemptRegistration, startHeartbeat]

theorem force_cf (r : Bool) (s : AgentState) :
    (forceReRegister r s).1.consecutiveFailures = 0 := by
  rw [forceReRegister, attempt_cf]
  rfl

/-- Claim-side reading of a well-formed verify body: an array of instance
records, or an object whose instances property holds an array; anything
else has no well-formed record list. -/
def specInstanceList : JsonValue → Option (List JsonValue)
  | .jarr xs => some xs
  | .jobj fs =>
      match lookupField fs "instances" with
      | some (.jarr xs) => some xs
      | _ => none
  | _ => none

theorem rawInstances_of_spec {body : JsonValue} {xs : List JsonValue}
    (h : specInstanceList body = some xs) : rawInstances body = .jarr xs := by
  cases body with
  | jobj fs =>
      cases hl : lookupField fs "instances" with
      | none => simp_all [specInstanceList, rawInstances, getInstances]
      | some v =>
          cases v <;> simp_all [specInstanceList, rawInstances, getInstances, truthy]
  | _ => simp_all [specInstanceList, rawInstances, getInstances]

/-- Bool test from the amended claim C10: the body is not an array and
its instances property is absent or falsy, so line 442 substitutes the
empty array. -/
def emptyFallback (body : JsonValue) : Bool :=
  match body with
  | .jarr _ => false
  | _ =>
      match getInstances body with
      | some v => !truthy v
      | none => true

/-- Bool test from the amended claim C10: the body is not an array and
its instances property is truthy but itself not an array, so the .some
call at line 445 throws. -/
def truthyNonArray (body : JsonValue) : Bool :=
  match body with
  | .jarr _ => false
  | _ =>
      match getInstances body with
      | some (.jarr _) => false
      | some v => truthy v
      | none => false

theorem rawInstances_of_emptyFallback {body : JsonValue}
    (h : emptyFallback body = true) : rawInstances body = .jarr [] := by
  cases body with
  | jobj fs =>
      cases hl : lookupField fs "instances" with
      | none => simp_all [emptyFallback, rawInstances, getInstances]
      | some v =>
          cases v <;> simp_all [emptyFallback, rawInstances, getInstances, truthy]
  | _ => simp_all [emptyFallback, rawInstances, getInstances]

theorem someMatch_none_of_truthyNonArray (iid : String) {body : JsonValue}
    (h : truthyNonArray body = true) : someMatch iid (rawInstances body) = none := by
  cases body with
  | jobj fs =>
      cases hl : lookupField fs "instances" with
      | none => simp_all [truthyNonArray, getInstances]
      | some v =>
          cases v <;>
            simp_all [truthyNonArray, rawInstances, getInstances, truthy, someMatch]
  | _ => simp_all [truthyNonArray, getInstances]

/-- Event-loop view of the agent for operations that suspend: base is the
instance state and pendingRegs counts attemptRegistration invocations
currently suspended at the awaited register fetch (line 295 awaiting the
fetch at line 345).  forceReRegister does not await the
attemptRegistration it starts (line 414), so its synchronous body can
finish while that call is still in flight. -/
structure AsyncState where
  base : AgentState
  pendingRegs : Nat
deriving DecidableEq

/-- Synchronous body of forceReRegister (lines 402-415) on the event
loop: the state mutation of lines 403-411, then the synchronous prefix of
attemptRegistration, whose registered check at line 292 sees the value
just set to false, so a register fetch is issued and the continuation
suspends. -/
def forceSyncA (a : AsyncState) : AsyncState :=
  { base := forcePre a.base, pendingRegs := a.pendingRegs + 1 }

/-- Resumption of one suspended attemptRegistration when its register
fetch settles: on success the block at lines 296-311 runs without
rechecking registered (ending in startHeartbeat, which overwrites any
stored heartbeat handle without cancelling it); on failure the catch
block at lines 312-329 runs. -/
def resolveRegA (ok : Bool) (a : AsyncState) : AsyncState :=
  match a.pendingRegs with
  | 0 => a
  | n + 1 =>
      if ok then
        { base := startHeartbeat
            { a.base with registered := true, isRetrying := false,
                          retryTimer := a.base.retryTimer.clearI },
          pendingRegs := n }
      else
        let b1 := { a.base with registered := false }
        if b1.isRetrying then { base := b1, pendingRegs := n }
        else
          { base := { b1 with isRetrying := true, retryTimer := b1.retryTimer.arm },
            pendingRegs := n }

/-- C1: for every sequence of register, heartbeat and verify outcomes
driven through the operations of the agent (registration attempts via
start and retry ticks, heartbeat ticks, health-check ticks, forced
re-registration, stop), the fields registered and isRetrying are never
both true in any state between operations. -/
theorem c1_registered_retrying_mutex {s : AgentState} (h : Reach s) :
    ¬(s.registered = true ∧ s.isRetrying = true) := by
  rintro ⟨h1, h2⟩
  have := (reach_agentInv h).1 h1
  simp [h2] at this

theorem c1_registered_retrying_mutex_witness :
    ¬((afterStart true).registered = true ∧ (afterStart true).isRetrying = true) :=
  c1_registered_retrying_mutex ⟨true, [], rfl⟩

/-- C2 counterexample: in the reachable state right after a successful
start the agent is registered, and stop with a throwing deregister fetch
completes with registered still true, against the claimed
registered-false outcome: the assignment at line 462 sits after the
awaited fetch of line 461 and is skipped when the fetch throws, while
onModuleDestroy merely logs the error. -/
theorem c2_stop_counterexample :
    (afterStart true).registered = true
    ∧ (onModuleDestroy false (afterStart true)).1.registered = true := by
  decide

/-- C2 amended: after stop completes no heartbeat, retry or health-check
interval is live; registered becomes false whenever the agent was already
unregistered or the deregister fetch resolves (with any status), but when
the agent is registered and the deregister fetch throws, registered
remains true. -/
theorem c2_stop_amended {s : AgentState} (h : Reach s) (d : Bool) :
    (onModuleDestroy d s).1.heartbeatTimer.live = 0
    ∧ (onModuleDestroy d s).1.retryTimer.live = 0
    ∧ (onModuleDestroy d s).1.healthCheckTimer.live = 0
    ∧ (d = true → (onModuleDestroy d s).1.registered = false)
    ∧ (s.registered = false → (onModuleDestroy d s).1.registered = false)
    ∧ (d = false → (onModuleDestroy d s).1.registered = s.registered) := by
  obtain ⟨i1, i2, i3, i4, i5, i6, i7, i8⟩ := reach_agentInv h
  obtain ⟨reg, retr, cf, hbt, rt, hct⟩ := s
  have hb1 := clearI_live i5
  have hr1 := clearI_live i6
  have hc1 := clearI_live i7
  cases reg <;> cases d <;>
    simp_all [onModuleDestroy, stopTimers, deregister]

theorem c2_stop_amended_witness :
    (onModuleDestroy false (afterStart true)).1.heartbeatTimer.live = 0
    ∧ (onModuleDestroy false (afterStart true)).1.retryTimer.live = 0
    ∧ (onModuleDestroy false (afterStart true)).1.healthCheckTimer.live = 0
    ∧ (false = true → (onModuleDestroy false (afterStart true)).1.registered = false)
    ∧ ((afterStart true).registered = false →
        (onModuleDestroy false (afterStart true)).1.registered = false)
    ∧ (false = false →
        (onModuleDestroy false (afterStart true)).1.registered
          = (afterStart true).registered) :=
  c2_stop_amended ⟨true, [], rfl⟩ false

/-- C3: whatever value the failure counter holds (including 0), a
heartbeat tick on a registered agent that sees HTTP 404 performs forced
re-registration in that same tick: the state passes through forcePre
(registered false, heartbeat field disarmed, counter reset rather than
incremented) and a fresh register call is issued immediately, with no
retry-interval wait and no pass through the failure counter. -/
theorem c3_heartbeat_notFound {s : AgentState} (h : s.registered = true) (r : Bool) :
    sendHeartbeat .notFound r s
      = ((attemptRegistration r (forcePre s)).1,
         Call.heartbeat .notFound :: (attemptRegistration r (forcePre s)).2)
    ∧ (forcePre s).registered = false
    ∧ (forcePre s).heartbeatTimer.handle = false
    ∧ (forcePre s).consecutiveFailures = 0
    ∧ Call.register r ∈ (sendHeartbeat .notFound r s).2 := by
  have h1 : sendHeartbeat .notFound r s
      = ((forceReRegister r s).1, Call.heartbeat .notFound :: (forceReRegister r s).2) := by
    simp [sendHeartbeat, h]
  refine ⟨h1, rfl, clearI_handle _, rfl, ?_⟩
  rw [h1]
  exact List.mem_cons_of_mem _ (register_mem_attempt rfl r)

theorem c3_heartbeat_notFound_witness :
    sendHeartbeat .notFound true (afterStart true)
      = ((attemptRegistration true (forcePre (afterStart true))).1,
         Call.heartbeat .notFound
           :: (attemptRegistration true (forcePre (afterStart true))).2)
    ∧ (forcePre (afterStart true)).registered = false
    ∧ (forcePre (afterStart true)).heartbeatTimer.handle = false
    ∧ (forcePre (afterStart true)).consecutiveFailures = 0
    ∧ Call.register true ∈ (sendHeartbeat .notFound true (afterStart true)).2 :=
  c3_heartbeat_notFound rfl true

/-- C4: from a registered state with failure counter 0, the first two
generic heartbeat failures only raise the counter to 1 and then 2, with
no register call issued and registered still true, while the third
consecutive failure reaches the threshold of 3 and performs forced
re-registration in that tick: a register call is issued and the counter
is reset. -/
theorem c4_three_failures {s : AgentState} (h : s.registered = true)
    (hcf : s.consecutiveFailures = 0) (r : Bool) :
    sendHeartbeat .failed r s
      = ({ s with consecutiveFailures := 1 }, [Call.heartbeat .failed])
    ∧ sendHeartbeat .failed r { s with consecutiveFailures := 1 }
      = ({ s with consecutiveFailures := 2 }, [Call.heartbeat .failed])
    ∧ ({ s with consecutiveFailures := 2 } : AgentState).registered = true
    ∧ sendHeartbeat .failed r { s with consecutiveFailures := 2 }
      = ((forceReRegister r { s with consecutiveFailures := 3 }).1,
         Call.heartbeat .failed
           :: (forceReRegister r { s with consecutiveFailures := 3 }).2)
    ∧ Call.register r ∈ (sendHeartbeat .failed r { s with consecutiveFailures := 2 }).2
    ∧ (sendHeartbeat .failed r
        { s with consecutiveFailures := 2 }).1.consecutiveFailures = 0 := by
  have e3 : sendHeartbeat .failed r { s with consecutiveFailures := 2 }
      = ((forceReRegister r { s with consecutiveFailures := 3 }).1,
         Call.heartbeat .failed
           :: (forceReRegister r { s with consecutiveFailures := 3 }).2) := by
    simp [sendHeartbeat, h, handleHeartbeatFailure, maxConsecutiveFailures]
  refine ⟨?_, ?_, h, e3, ?_, ?_⟩
  · simp [sendHeartbeat, h, handleHeartbeatFailure, hcf, maxConsecutiveFailures]
  · simp [sendHeartbeat, h, handleHeartbeatFailure, maxConsecutiveFailures]
  · rw [e3]
    exact List.mem_cons_of_mem _ (register_mem_attempt rfl r)
  · rw [e3]
    exact force_cf r _

theorem c4_three_failures_witness :
    sendHeartbeat .failed true (afterStart true)
      = ({ afterStart true with consecutiveFailures := 1 }, [Call.heartbeat .failed])
    ∧ sendHeartbeat .failed true { afterStart true with consecutiveFailures := 1 }
      = ({ afterStart true with consecutiveFailures := 2 }, [Call.heartbeat .failed])
    ∧ ({ afterStart true with consecutiveFailures := 2 } : AgentState).registered = true
    ∧ sendHeartbeat .failed true { afterStart true with consecutiveFailures := 2 }
      = ((forceReRegister true { afterStart true with consecutiveFailures := 3 }).1,
         Call.heartbeat .failed
           :: (forceReRegister true { afterStart true with consecutiveFailures := 3 }).2)
    ∧ Call.register true
        ∈ (sendHeartbeat .failed true { afterStart true with consecutiveFailures := 2 }).2
    ∧ (sendHeartbeat .failed true
        { afterStart true with consecutiveFailures := 2 }).1.consecutiveFailures = 0 :=
  c4_three_failures rfl rfl true

/-- C5: on a health-check tick while registered: a non-2xx response or a
thrown call (Unreachable) leaves the state unchanged with no
re-registration; a 2xx body that is an array, or an object with an
instances array, containing a record whose instanceId equals the
configured instance id (Present) changes nothing; such a body containing
no matching record (Absent) performs forced re-registration, issuing a
register call in the same tick. -/
theorem c5_verify_outcomes (iid : String) {s : AgentState}
    (h : s.registered = true) (r : Bool) :
    verifyRegistration iid .transportError r s = (s, [Call.verify])
    ∧ verifyRegistration iid .httpError r s = (s, [Call.verify])
    ∧ (∀ (body : JsonValue) (xs : List JsonValue), specInstanceList body = some xs →
        xs.any (instMatches iid) = true →
        verifyRegistration iid (.okJson body) r s = (s, [Call.verify]))
    ∧ (∀ (body : JsonValue) (xs : List JsonValue), specInstanceList body = some xs →
        xs.any (instMatches iid) = false →
        verifyRegistration iid (.okJson body) r s
          = ((forceReRegister r s).1, Call.verify :: (forceReRegister r s).2)
        ∧ Call.register r ∈ (verifyRegistration iid (.okJson body) r s).2) := by
  refine ⟨by simp [verifyRegistration, h], by simp [verifyRegistration, h], ?_, ?_⟩
  · intro body xs hb hm
    have hraw := rawInstances_of_spec hb
    simp [verifyRegistration, h, hraw, someMatch, hm]
  · intro body xs hb hm
    have hraw := rawInstances_of_spec hb
    have he : verifyRegistration iid (.okJson body) r s
        = ((forceReRegister r s).1, Call.verify :: (forceReRegister r s).2) := by
      simp [verifyRegistration, h, hraw, someMatch, hm]
    refine ⟨he, ?_⟩
    rw [he]
    exact List.mem_cons_of_mem _ (register_mem_attempt rfl r)

theorem c5_verify_outcomes_witness :
    verifyRegistration "i1" .transportError true (afterStart true)
      = (afterStart true, [Call.verify])
    ∧ verifyRegistration "i1"
        (.okJson (JsonValue.jarr [JsonValue.jobj [("instanceId", JsonValue.jstr "i1")]]))
        true (afterStart true)
      = (afterStart true, [Call.verify])
    ∧ Call.register true
        ∈ (verifyRegistration "i1" (.okJson (JsonValue.jarr [])) true (afterStart true)).2 :=
  ⟨(c5_verify_outcomes "i1" rfl true).1,
   (c5_verify_outcomes "i1" rfl true).2.2.1
     (JsonValue.jarr [JsonValue.jobj [("instanceId", JsonValue.jstr "i1")]])
     [JsonValue.jobj [("instanceId", JsonValue.jstr "i1")]] rfl (by decide),
   ((c5_verify_outcomes "i1" rfl true).2.2.2 (JsonValue.jarr []) [] rfl rfl).2⟩

/-- C6 counterexample: from the reachable state right after a successful
start (one live heartbeat interval), two forceReRegister calls in
immediate succession leave two register calls in flight, refuting the
at-most-one-in-flight part; and when both resolve successfully the agent
holds two live heartbeat intervals with only the second handle stored,
refuting the exactly-one-live-heartbeat-timer part: startHeartbeat at
lines 357-361 overwrites the stored handle without cancelling the
existing interval, and the success continuation never rechecks
registered. -/
theorem c6_double_force_counterexample :
    (forceSyncA (forceSyncA
      { base := afterStart true, pendingRegs := 0 })).pendingRegs = 2
    ∧ (resolveRegA true (resolveRegA true (forceSyncA (forceSyncA
        { base := afterStart true, pendingRegs := 0 })))).base.heartbeatTimer.live = 2
    ∧ (resolveRegA true (resolveRegA true (forceSyncA (forceSyncA
        { base := afterStart true, pendingRegs := 0 })))).base.heartbeatTimer.handle
        = true := by
  decide

/-- C6 amended: under sequential completion, where every register call
that an operation starts resolves before the next operation runs, at most
one live interval exists per task kind in every reachable state; the
original claim fails only because forceReRegister does not await the
attemptRegistration it starts and startHeartbeat does not cancel an
already stored timer, so two overlapping forced re-registrations can hold
two register calls in flight and leak a heartbeat interval. -/
theorem c6_single_timer_amended {s : AgentState} (h : Reach s) :
    s.heartbeatTimer.live ≤ 1 ∧ s.retryTimer.live ≤ 1
      ∧ s.healthCheckTimer.live ≤ 1 := by
  obtain ⟨-, -, -, -, i5, i6, i7, -⟩ := reach_agentInv h
  exact ⟨slotOk_le_one i5, slotOk_le_one i6, slotOk_le_one i7⟩

theorem c6_single_timer_amended_witness :
    (afterStart true).heartbeatTimer.live ≤ 1
    ∧ (afterStart true).retryTimer.live ≤ 1
    ∧ (afterStart true).healthCheckTimer.live ≤ 1 :=
  c6_single_timer_amended ⟨true, [], rfl⟩

theorem sendHeartbeat_cf {s : AgentState} (hreg : s.registered = true)
    (hb : HbOutcome) (r : Bool)
    (hm : Call.register true ∈ (sendHeartbeat hb r s).2
      ∨ Call.heartbeat .ok ∈ (sendHeartbeat hb r s).2) :
    (sendHeartbeat hb r s).1.consecutiveFailures = 0 := by
  cases hb with
  | ok => simp [sendHeartbeat, hreg]
  | notFound =>
      have e : (sendHeartbeat .notFound r s).1 = (forceReRegister r s).1 := by
        simp [sendHeartbeat, hreg]
      rw [e]
      exact force_cf r s
  | failed =>
      by_cases hthr : maxConsecutiveFailures ≤ s.consecutiveFailures + 1
      · have e : (sendHeartbeat .failed r s).1
            = (forceReRegister r { s with consecutiveFailures :=
                s.consecutiveFailures + 1 }).1 := by
          simp [sendHeartbeat, hreg, handleHeartbeatFailure, hthr]
        rw [e]
        exact force_cf r _
      · simp [sendHeartbeat, hreg, handleHeartbeatFailure, hthr] at hm

theorem verify_cf {s : AgentState} (iid : String) (w : VerifyWire) (r : Bool)
    (hm : Call.register true ∈ (verifyRegistration iid w r s).2
      ∨ Call.heartbeat .ok ∈ (verifyRegistration iid w r s).2) :
    (verifyRegistration iid w r s).1.consecutiveFailures = 0 := by
  by_cases hreg : s.registered = false
  · simp [verifyRegistration, hreg] at hm
  · have hreg1 : s.registered = true := by simpa using hreg
    cases w with
    | transportError => simp [verifyRegistration, hreg1] at hm
    | httpError => simp [verifyRegistration, hreg1] at hm
    | parseError => simp [verifyRegistration, hreg1] at hm
    | okJson body =>
        cases hsm : someMatch iid (rawInstances body) with
        | none => simp [verifyRegistration, hreg1, hsm] at hm
        | some b =>
            cases b with
            | true => simp [verifyRegistration, hreg1, hsm] at hm
            | false =>
                have e : (verifyRegistration iid (.okJson body) r s).1
                    = (forceReRegister r s).1 := by
                  simp [verifyRegistration, hreg1, hsm]
                rw [e]
                exact force_cf r s

/-- C7: in every reachable state, any operation that completes a
successful registration (its call trace contains a successful register
call) or a successful heartbeat (its call trace contains an ok heartbeat
POST) ends with consecutiveFailures equal to 0. -/
theorem c7_counter_reset {s : AgentState} (h : Reach s) (e : Event) :
    Call.register true ∈ (step e s).2 ∨ Call.heartbeat .ok ∈ (step e s).2 →
    (step e s).1.consecutiveFailures = 0 := by
  intro hmem
  obtain ⟨i1, i2, i3, i4, i5, i6, i7, i8⟩ := reach_agentInv h
  cases e with
  | hbTick hb r =>
      by_cases hh : s.heartbeatTimer.handle = true
      · have hreg : s.registered = true := by
          cases hr : s.registered with
          | false => exact absurd (i4 hr) (by simp [hh])
          | true => rfl
        have e1 : step (.hbTick hb r) s = sendHeartbeat hb r s := by simp [step, hh]
        rw [e1] at hmem ⊢
        exact sendHeartbeat_cf hreg hb r hmem
      · simp [step, hh] at hmem
  | retryTick r =>
      by_cases hh : s.retryTimer.handle = true
      · by_cases hr : s.registered = false
        · have e1 : step (.retryTick r) s = attemptRegistration r s := by
            simp [step, hh, hr]
          rw [e1, attempt_cf]
          exact i8 hr hh
        · simp [step, hh, hr] at hmem
      · simp [step, hh] at hmem
  | healthTick iid w r =>
      by_cases hh : s.healthCheckTimer.handle = true
      · have e1 : step (.healthTick iid w r) s = verifyRegistration iid w r s := by
          simp [step, hh]
        rw [e1] at hmem ⊢
        exact verify_cf iid w r hmem
      · simp [step, hh] at hmem
  | forceEvt r =>
      by_cases hr : s.registered = true
      · have e1 : step (.forceEvt r) s = forceReRegister r s := by simp [step, hr]
        rw [e1]
        exact force_cf r s
      · simp [step, hr] at hmem
  | stopEvt d =>
      cases hr : s.registered <;> cases d <;>
        simp [step, onModuleDestroy, stopTimers, deregister, hr] at hmem

theorem c7_counter_reset_witness :
    (step (.retryTick true) (afterStart false)).1.consecutiveFailures = 0 :=
  c7_counter_reset ⟨false, [], rfl⟩ (.retryTick true) (Or.inl (by decide))

/-- C8: starting unregistered, a failed register call inside
attemptRegistration leaves isRetrying true with the retry timer armed
when the agent was not yet retrying, and changes nothing (in particular
does not re-arm the timer) when it already was; a retry tick on an
unregistered agent whose register call succeeds ends registered with
isRetrying false, the retry timer disarmed and the heartbeat timer
armed; and a retry tick that fires while registered performs no call and
no state change. -/
theorem c8_retry_lifecycle {s : AgentState} (r : Bool) :
    (s.registered = false → s.isRetrying = false →
      (attemptRegistration false s).1.isRetrying = true
      ∧ (attemptRegistration false s).1.retryTimer.handle = true)
    ∧ (s.registered = false → s.isRetrying = true →
      attemptRegistration false s = (s, [Call.register false]))
    ∧ (s.registered = false → s.retryTimer.handle = true →
        (step (.retryTick true) s).1.registered = true
        ∧ (step (.retryTick true) s).1.isRetrying = false
        ∧ (step (.retryTick true) s).1.retryTimer.handle = false
        ∧ (step (.retryTick true) s).1.heartbeatTimer.handle = true)
    ∧ (s.registered = true → step (.retryTick r) s = (s, [])) := by
  obtain ⟨reg, retr, cf, hbt, rt, hct⟩ := s
  refine ⟨?_, ?_, ?_, ?_⟩
  · intro h1 h2
    simp only at h1 h2
    subst h1; subst h2
    simp [attemptRegistration, TimerSlot.arm]
  · intro h1 h2
    simp only at h1 h2
    subst h1; subst h2
    simp [attemptRegistration]
  · intro h1 h2
    simp only at h1 h2
    subst h1
    simp [step, h2, attemptRegistration, startHeartbeat, TimerSlot.arm, clearI_handle]
  · intro h1
    simp only at h1
    subst h1
    cases hrt : rt.handle <;> simp [step, hrt]

theorem c8_retry_lifecycle_witness :
    ((attemptRegistration false initState).1.isRetrying = true
      ∧ (attemptRegistration false initState).1.retryTimer.handle = true)
    ∧ attemptRegistration false (afterStart false)
        = (afterStart false, [Call.register false])
    ∧ ((step (.retryTick true) (afterStart false)).1.registered = true
        ∧ (step (.retryTick true) (afterStart false)).1.isRetrying = false
        ∧ (step (.retryTick true) (afterStart false)).1.retryTimer.handle = false
        ∧ (step (.retryTick true) (afterStart false)).1.heartbeatTimer.handle = true)
    ∧ step (.retryTick true) (afterStart true) = (afterStart true, []) :=
  ⟨(c8_retry_lifecycle (s := initState) true).1 rfl rfl,
   (c8_retry_lifecycle (s := afterStart false) true).2.1 rfl rfl,
   (c8_retry_lifecycle (s := afterStart false) true).2.2.1 rfl rfl,
   (c8_retry_lifecycle (s := afterStart true) true).2.2.2 rfl⟩

/-- C9: a heartbeat tick that fires while registered is false issues no
heartbeat POST at all and behaves exactly as one attemptRegistration
invocation, and attemptRegistration on an agent that is already
registered returns immediately with no network call and no state
change. -/
theorem c9_heartbeat_unregistered {s : AgentState} (h : s.registered = false)
    (hb : HbOutcome) (r : Bool) :
    sendHeartbeat hb r s = attemptRegistration r s
    ∧ (∀ o : HbOutcome, Call.heartbeat o ∉ (sendHeartbeat hb r s).2)
    ∧ ∀ t : AgentState, t.registered = true → attemptRegistration r t = (t, []) := by
  have e : sendHeartbeat hb r s = attemptRegistration r s := by
    simp [sendHeartbeat, h]
  refine ⟨e, ?_, ?_⟩
  · intro o
    rw [e]
    obtain ⟨reg, retr, cf, hbt, rt, hct⟩ := s
    simp only at h
    subst h
    cases r <;> cases retr <;> simp [attemptRegistration]
  · intro t ht
    simp [attemptRegistration, ht]

theorem c9_heartbeat_unregistered_witness :
    sendHeartbeat .ok true (afterStart false) = attemptRegistration true (afterStart false)
    ∧ (∀ o : HbOutcome, Call.heartbeat o ∉ (sendHeartbeat .ok true (afterStart false)).2)
    ∧ ∀ t : AgentState, t.registered = true → attemptRegistration true t = (t, []) :=
  c9_heartbeat_unregistered rfl .ok true

/-- C10 counterexample: the 2xx body with instances set to the number 1
is neither an array nor an object with an instances array, yet on a
registered agent the health-check tick leaves the state unchanged and
issues no register call, instead of treating the body as an empty
instance list and forcing re-registration: line 442 keeps the truthy
non-array value, so the .some call at line 445 throws and the catch at
line 453 swallows it. -/
theorem c10_nonlist_body_counterexample :
    specInstanceList (JsonValue.jobj [("instances", JsonValue.jnum 1)]) = none
    ∧ (afterStart true).registered = true
    ∧ verifyRegistration "i1"
        (.okJson (JsonValue.jobj [("instances", JsonValue.jnum 1)]))
        true (afterStart true)
      = (afterStart true, [Call.verify]) := by
  refine ⟨rfl, rfl, ?_⟩
  decide

/-- C10 amended: on a registered agent, a 2xx JSON body that is not an
array and whose instances property is absent or falsy (for example the
empty object or null) is treated as an empty instance list, hence Absent,
and forces re-registration with a register call in the same tick; a body
whose instances property is truthy but not itself an array makes the
handler throw, which is caught and treated like an unreachable gateway
(no state change); and a 2xx body that fails JSON parsing likewise
throws, is caught, and changes nothing. -/
theorem c10_body_parsing_amended (iid : String) {s : AgentState}
    (h : s.registered = true) (r : Bool) (body : JsonValue) :
    (emptyFallback body = true →
      verifyRegistration iid (.okJson body) r s
        = ((forceReRegister r s).1, Call.verify :: (forceReRegister r s).2)
      ∧ Call.register r ∈ (verifyRegistration iid (.okJson body) r s).2)
    ∧ (truthyNonArray body = true →
      verifyRegistration iid (.okJson body) r s = (s, [Call.verify]))
    ∧ verifyRegistration iid .parseError r s = (s, [Call.verify]) := by
  refine ⟨?_, ?_, by simp [verifyRegistration, h]⟩
  · intro hf
    have hraw := rawInstances_of_emptyFallback hf
    have he : verifyRegistration iid (.okJson body) r s
        = ((forceReRegister r s).1, Call.verify :: (forceReRegister r s).2) := by
      simp [verifyRegistration, h, hraw, someMatch]
    refine ⟨he, ?_⟩
    rw [he]
    exact List.mem_cons_of_mem _ (register_mem_attempt rfl r)
  · intro ht
    have hsm := someMatch_none_of_truthyNonArray iid ht
    simp [verifyRegistration, h, hsm]

theorem c10_body_parsing_amended_witness :
    (verifyRegistration "i1" (.okJson JsonValue.jnull) true (afterStart true)
        = ((forceReRegister true (afterStart true)).1,
           Call.verify :: (forceReRegister true (afterStart true)).2)
      ∧ Call.register true
          ∈ (verifyRegistration "i1" (.okJson JsonValue.jnull) true (afterStart true)).2)
    ∧ verifyRegistration "i1"
          (.okJson (JsonValue.jobj [("instances", JsonValue.jstr "x")]))
          true (afterStart true)
        = (afterStart true, [Call.verify])
    ∧ verifyRegistration "i1" .parseError true (afterStart true)
      = (afterStart true, [Call.verify]) :=
  ⟨(c10_body_parsing_amended "i1" rfl true JsonValue.jnull).1 rfl,
   (c10_body_parsing_amended "i1" rfl true
      (JsonValue.jobj [("instances", JsonValue.jstr "x")])).2.1 rfl,
   (c10_body_parsing_amended "i1" rfl true JsonValue.jnull).2.2⟩
